import Mathlib

/-!
Verification of the frame-lifecycle core of the VkAndrea renderer
(`src/vk_engine.cpp`). The definitions below are a shallow embedding of the
engine's data model and operations: pure computations become Lean functions,
the sequential effects of `draw`, `cleanup` and the main loop become explicit
event traces, and Vulkan handles become abstract inductive resources.
Components declared in headers that are not part of the repository snapshot
(`vk_engine.h`, `vk_types.h`) are modelled from the specification and marked
as such in their doc comments.
-/

namespace VkAndrea

/-! ## Frame slot ring -/

/-- Modelled from the spec: the frame-overlap constant N is declared in
`vk_engine.h`, which is missing from the source snapshot; the spec fixes
N = 2 for double buffering. -/
def FRAME_OVERLAP : Nat := 2

/-- Modelled from the spec: `get_current_frame()` is defined in `vk_engine.h`,
missing from the source snapshot; the spec states that the slot for a frame is
`frame_number mod N`. -/
def current_slot (frameNumber : Nat) : Nat := frameNumber % FRAME_OVERLAP

/-! ## Deletion queue

Modelled from the spec: the `DeletionQueue` type is declared in `vk_engine.h`,
missing from the source snapshot. Per the spec it is an ordered sequence of
deferred-destruction callbacks; `push_function` registers a callback at the
back, and `flush` traverses the stored callbacks from the most recently
registered to the oldest, executing each, and leaves the queue empty. The
element type is abstract: a callback is represented by an opaque label. -/

structure DeletionQueue (α : Type) where
  deletors : List α
deriving DecidableEq, Repr

/-- The empty deletion queue. -/
def DeletionQueue.empty {α : Type} : DeletionQueue α := ⟨[]⟩

/-- Register one callback: appended at the back of the stored sequence. -/
def DeletionQueue.push_function {α : Type} (q : DeletionQueue α) (f : α) :
    DeletionQueue α := ⟨q.deletors ++ [f]⟩

/-- Flush: execute the stored callbacks from the back of the sequence to the
front (the C++ iterates `rbegin()` to `rend()`), then clear the queue. The
first component is the execution order, the second the queue afterwards. -/
def DeletionQueue.flush {α : Type} (q : DeletionQueue α) :
    List α × DeletionQueue α := (q.deletors.reverse, ⟨[]⟩)

/-- Build a queue by registering the given callbacks one at a time, in order. -/
def registerAll {α : Type} (fs : List α) : DeletionQueue α :=
  fs.foldl DeletionQueue.push_function DeletionQueue.empty

/-! ## Vulkan results and the VK_CHECK macro -/

/-- Abstract Vulkan result codes, as far as the engine distinguishes them. -/
inductive VkResult where
  | success
  | errOutOfDate
  | otherError
deriving DecidableEq, Repr

/-- Modelled from the spec: the VK_CHECK macro is defined in `vk_types.h`,
missing from the source snapshot; the spec states that API-level failures are
fatal and abort the frame loop. VK_CHECK therefore aborts on any non-success
result: this predicate holds exactly when the checked call is fatal. -/
def vkCheckFatal (r : VkResult) : Bool := decide (r ≠ VkResult.success)

/-! ## Synchronization primitives -/

/-- A binary semaphore owned by a frame slot: either the image-acquired
semaphore (`_swapchainSemaphore`) or the render-complete semaphore
(`_renderSemaphore`). -/
inductive Sem where
  | swapchainSem (slot : Nat)
  | renderSem (slot : Nat)
deriving DecidableEq, Repr

/-- Pipeline stages named by the submit of `VulkanEngine::draw`. -/
inductive Stage where
  | colorAttachmentOutput
  | allGraphics
deriving DecidableEq, Repr

/-- The semaphore dependencies and fence of one `vkQueueSubmit2` call, as
assembled by `VulkanEngine::draw` from `vkinit::semaphore_submit_info` and
`vkinit::submit_info`. `fenceSlot` records which slot's `_renderFence` is
signaled when the submitted work finishes. -/
structure SubmitRecord where
  waitSem : Sem
  waitStage : Stage
  signalSem : Sem
  signalStage : Stage
  fenceSlot : Nat
deriving DecidableEq, Repr

/-- The wait semaphore and image index of one `vkQueuePresentKHR` call. -/
structure PresentRecord where
  waitSem : Sem
  imageIndex : Nat
deriving DecidableEq, Repr

/-! ## The draw step as an event trace -/

/-- One observable action of `VulkanEngine::draw`, in source order. The
`recreateSurface` constructor stands for a swapchain recreation (a call into
`create_swapchain`); it is part of the vocabulary so that its absence from the
draw trace can be stated. -/
inductive DrawEvent where
  | waitFence (slot : Nat)
  | flushSlot (slot : Nat)
  | resetFence (slot : Nat)
  | acquire (signalSem : Sem)
  | resetCmd (slot : Nat)
  | beginCmd
  | transitionDrawToGeneral
  | drawBackgroundCmd
  | transitionDrawToSrc
  | transitionSwapToDst
  | copyDrawToSwap
  | transitionSwapToPresent
  | endCmd
  | submit (info : SubmitRecord)
  | present (info : PresentRecord)
  | advanceFrame
  | abortFatal
  | recreateSurface
deriving DecidableEq, Repr

/-- The event trace of one call to `VulkanEngine::draw` for frame number `n`,
given the results returned by `vkAcquireNextImageKHR` and `vkQueuePresentKHR`
(the fence wait/reset and command-buffer calls are assumed to succeed, as the
claims under study only vary the acquire and present results) and the image
index produced by the acquire. Each event mirrors one call in the source, in
order; a fatal VK_CHECK truncates the trace with `abortFatal`. -/
def drawTraceR (n : Nat) (acqRes presRes : VkResult) (imageIndex : Nat) :
    List DrawEvent :=
  let slot := current_slot n
  [DrawEvent.waitFence slot, DrawEvent.flushSlot slot,
   DrawEvent.resetFence slot,
   DrawEvent.acquire (Sem.swapchainSem slot)] ++
  (if vkCheckFatal acqRes then [DrawEvent.abortFatal] else
    [DrawEvent.resetCmd slot, DrawEvent.beginCmd,
     DrawEvent.transitionDrawToGeneral, DrawEvent.drawBackgroundCmd,
     DrawEvent.transitionDrawToSrc, DrawEvent.transitionSwapToDst,
     DrawEvent.copyDrawToSwap, DrawEvent.transitionSwapToPresent,
     DrawEvent.endCmd,
     DrawEvent.submit
       { waitSem := Sem.swapchainSem slot,
         waitStage := Stage.colorAttachmentOutput,
         signalSem := Sem.renderSem slot,
         signalStage := Stage.allGraphics,
         fenceSlot := slot },
     DrawEvent.present
       { waitSem := Sem.renderSem slot, imageIndex := imageIndex }] ++
    (if vkCheckFatal presRes then [DrawEvent.abortFatal]
     else [DrawEvent.advanceFrame]))

/-- The trace of a fully successful draw of frame `n`. -/
def drawTrace (n : Nat) (imageIndex : Nat) : List DrawEvent :=
  drawTraceR n VkResult.success VkResult.success imageIndex

/-- The semaphore-related events of a draw trace, in order: keeps only the
`acquire`, `submit` and `present` events. -/
def syncEventsOf (tr : List DrawEvent) : List DrawEvent :=
  tr.filter fun e =>
    match e with
    | DrawEvent.acquire _ => true
    | DrawEvent.submit _ => true
    | DrawEvent.present _ => true
    | _ => false

/-- The fence/flush-related events of a draw trace, in order: keeps only
`waitFence`, `flushSlot` and `resetFence` events. -/
def fenceFlushEventsOf (tr : List DrawEvent) : List DrawEvent :=
  tr.filter fun e =>
    match e with
    | DrawEvent.waitFence _ => true
    | DrawEvent.flushSlot _ => true
    | DrawEvent.resetFence _ => true
    | _ => false

/-! ## Resources, allocation order and teardown -/

/-- The Vulkan-level resources created by `VulkanEngine::init` and destroyed by
`VulkanEngine::cleanup`. Per-slot resources carry their slot index; swapchain
image views carry their position in the view array. -/
inductive Res where
  | window
  | vkInstance
  | debugMessenger
  | surface
  | device
  | allocator
  | swapchain
  | swapchainImageView (i : Nat)
  | drawImage
  | drawImageView
  | commandPool (slot : Nat)
  | renderFence (slot : Nat)
  | renderSemaphore (slot : Nat)
  | swapchainSemaphore (slot : Nat)
deriving DecidableEq, Repr

/-- The registrations held by the global deletion queue `_mainDeletionQueue`
once `init` has run: `init_vulkan` registers the allocator-destroy callback
first, then `init_swapchain` registers the callback that destroys the draw
image view and then the draw image. Each callback is modelled by the list of
resources it destroys, in the order it destroys them. -/
def mainQueueRegistrations : List (List Res) :=
  [[Res.allocator], [Res.drawImageView, Res.drawImage]]

/-- The allocation order of `VulkanEngine::init`, parametrized by the number of
swapchain image views the swapchain builder returns: SDL window; then
`init_vulkan` (instance with debug messenger, surface, device, allocator); then
`init_swapchain` (swapchain with its image views, then the draw image and its
view); then `init_commands` (one command pool per slot); then
`init_sync_structures` (fence and two semaphores per slot). -/
def initAllocOrder (numViews : Nat) : List Res :=
  [Res.window, Res.vkInstance, Res.debugMessenger, Res.surface, Res.device,
   Res.allocator, Res.swapchain] ++
  (List.range numViews).map Res.swapchainImageView ++
  [Res.drawImage, Res.drawImageView] ++
  (List.range FRAME_OVERLAP).map Res.commandPool ++
  (List.range FRAME_OVERLAP).flatMap (fun i =>
    [Res.renderFence i, Res.renderSemaphore i, Res.swapchainSemaphore i])

/-- One observable action of `VulkanEngine::cleanup`. The flush markers record
that a deletion queue's flush is invoked; the destructions a flush performs
follow its marker as ordinary `destroy` events. `slotFlush` is part of the
vocabulary so that its absence from the cleanup trace can be stated. -/
inductive CleanupEvent where
  | waitIdle
  | destroy (r : Res)
  | globalFlush
  | slotFlush (slot : Nat)
deriving DecidableEq, Repr

/-- The event trace of `VulkanEngine::cleanup` when the engine was initialized,
parametrized by the number of swapchain image views. In source order: the
device-idle wait; per slot, destruction of the command pool, fence and both
semaphores; the flush of the global deletion queue (its callbacks run in
reverse registration order, each destroying its resources); then
`destroy_swapchain` (swapchain handle, then each image view); then device,
surface, debug messenger, SDL window and instance. -/
def cleanupTraceInit (numViews : Nat) : List CleanupEvent :=
  [CleanupEvent.waitIdle] ++
  (List.range FRAME_OVERLAP).flatMap (fun i =>
    [CleanupEvent.destroy (Res.commandPool i),
     CleanupEvent.destroy (Res.renderFence i),
     CleanupEvent.destroy (Res.renderSemaphore i),
     CleanupEvent.destroy (Res.swapchainSemaphore i)]) ++
  [CleanupEvent.globalFlush] ++
  ((registerAll mainQueueRegistrations).flush.1.flatMap (fun cb =>
    cb.map CleanupEvent.destroy)) ++
  [CleanupEvent.destroy Res.swapchain] ++
  (List.range numViews).map (fun i =>
    CleanupEvent.destroy (Res.swapchainImageView i)) ++
  [CleanupEvent.destroy Res.device, CleanupEvent.destroy Res.surface,
   CleanupEvent.destroy Res.debugMessenger, CleanupEvent.destroy Res.window,
   CleanupEvent.destroy Res.vkInstance]

/-- Full model of `VulkanEngine::cleanup`: the `_isInitialized` guard skips
every Vulkan call when initialization never completed, and in either case the
global engine pointer `loadedEngine` is cleared at the end. Returns the event
trace and the value of `loadedEngine` afterwards. -/
def cleanupRun (isInitialized : Bool) (numViews : Nat) :
    List CleanupEvent × Option Nat :=
  ((if isInitialized then cleanupTraceInit numViews else []), none)

/-! ## Sync-structure creation -/

/-- The `VK_FENCE_CREATE_SIGNALED_BIT` flag value. -/
def VK_FENCE_CREATE_SIGNALED_BIT : Nat := 1

/-- The `flags` field of a `VkFenceCreateInfo`, as built by
`vkinit::fence_create_info`. -/
structure FenceCreateRecord where
  flags : Nat
deriving DecidableEq, Repr

/-- A fence's CPU-visible state: whether it is currently signaled. -/
structure Fence where
  signaled : Bool
deriving DecidableEq, Repr

/-- Creating a fence: it starts signaled exactly when the create info carries
`VK_FENCE_CREATE_SIGNALED_BIT`. -/
def createFence (info : FenceCreateRecord) : Fence :=
  ⟨info.flags &&& VK_FENCE_CREATE_SIGNALED_BIT != 0⟩

/-- Whether `vkWaitForFences` on this fence blocks: it returns immediately when
the fence is already signaled. -/
def waitForFenceBlocks (f : Fence) : Bool := !f.signaled

/-- The per-slot render fences created by `VulkanEngine::init_sync_structures`:
one fence per slot, each created from a create info whose flags are
`VK_FENCE_CREATE_SIGNALED_BIT`. -/
def initSyncRenderFences : List Fence :=
  (List.range FRAME_OVERLAP).map (fun _ =>
    createFence ⟨VK_FENCE_CREATE_SIGNALED_BIT⟩)

/-! ## The animated background value

`VulkanEngine::draw_background` computes
`float flash = std::abs(std::sin(_frameNumber / 120.f));` and uses it as the
blue channel of the clear color. The float arithmetic is idealized over the
real numbers. -/

/-- The clear-color flash value for frame number `n`:
`abs(sin(n / 120))`, idealizing `float` as the reals. -/
noncomputable def flash (n : Nat) : ℝ := |Real.sin (n / 120)|

/-- The same formula extended to a real-valued frame count, used to state
periodicity in frame-count units. -/
noncomputable def flashReal (x : ℝ) : ℝ := |Real.sin (x / 120)|

/-! ## The main loop -/

/-- Keys the event handler of `VulkanEngine::run` distinguishes. -/
inductive Key where
  | left
  | right
  | up
  | down
  | lshift
  | escape
  | otherKey
deriving DecidableEq, Repr

/-- SDL events as far as `VulkanEngine::run` inspects them. -/
inductive SDLEvent where
  | quitEvent
  | windowMinimized
  | windowRestored
  | keyDown (k : Key)
  | otherEvent
deriving DecidableEq, Repr

/-- The loop-local state of `VulkanEngine::run`: the quit flag and the
engine's `stop_rendering` flag. -/
structure RunState where
  bQuit : Bool
  stop_rendering : Bool
deriving DecidableEq, Repr

/-- Processing of one polled event, exactly as the event handler of
`VulkanEngine::run` does: SDL_QUIT and the escape key set `bQuit`; a
window-minimized event sets `stop_rendering`; a window-restored event clears
it; every other event (including the movement keys, which only print) leaves
the state unchanged. -/
def processEvent (s : RunState) (e : SDLEvent) : RunState :=
  match e with
  | SDLEvent.quitEvent => { s with bQuit := true }
  | SDLEvent.windowMinimized => { s with stop_rendering := true }
  | SDLEvent.windowRestored => { s with stop_rendering := false }
  | SDLEvent.keyDown Key.escape => { s with bQuit := true }
  | SDLEvent.keyDown _ => s
  | SDLEvent.otherEvent => s

/-- The inner `SDL_PollEvent` loop: process every pending event in order. -/
def processEvents (s : RunState) (events : List SDLEvent) : RunState :=
  events.foldl processEvent s

/-- Whether an event causes `VulkanEngine::run` to set `bQuit`. -/
def isQuitEvent (e : SDLEvent) : Bool :=
  match e with
  | SDLEvent.quitEvent => true
  | SDLEvent.keyDown Key.escape => true
  | _ => false

/-- What the body of one main-loop iteration does after the event loop:
either the minimized throttle (a 100 ms sleep followed by `continue`) or a
call to `draw`. -/
inductive IterAction where
  | sleepMs (ms : Nat)
  | drawFrame
deriving DecidableEq, Repr

/-- One iteration of the main loop of `VulkanEngine::run`, entered with state
`s` and the list of pending events: the events are drained first; then, if
`stop_rendering` is set, the iteration sleeps 100 ms and continues, otherwise
it calls `draw`. Returns the state at the end of the iteration and the action
taken. (The loop condition `!bQuit` is checked before the next iteration, so
an iteration that sets `bQuit` still performs its sleep or draw.) -/
def runIteration (s : RunState) (events : List SDLEvent) :
    RunState × IterAction :=
  let s2 := processEvents s events
  if s2.stop_rendering then (s2, IterAction.sleepMs 100)
  else (s2, IterAction.drawFrame)

/-- Whether the main loop runs another iteration from state `s`: the `while`
condition of `VulkanEngine::run`. -/
def loopContinues (s : RunState) : Bool := !s.bQuit

/-! ## The global engine pointer -/

/-- Engine instances are identified abstractly by a number; the global
`loadedEngine` pointer is either null (`none`) or points at an instance. -/
abbrev EngineRef := Nat

/-- Failure of the `assert(loadedEngine == nullptr)` at the top of
`VulkanEngine::init`. -/
inductive AssertViolation where
  | engineAlreadyLoaded
deriving DecidableEq, Repr

/-- The effect of `VulkanEngine::init` on the global `loadedEngine` pointer:
asserts that no engine is currently loaded, then installs `this`. A failed
assert aborts (modelled as an error); otherwise the new pointer value is
returned. -/
def engineInit (loadedEngine : Option EngineRef) (this : EngineRef) :
    Except AssertViolation (Option EngineRef) :=
  match loadedEngine with
  | some _ => Except.error AssertViolation.engineAlreadyLoaded
  | none => Except.ok (some this)

/-- The effect of `VulkanEngine::Get`: dereference the global pointer, defined
exactly when the pointer is non-null. -/
def engineGet (loadedEngine : Option EngineRef) : Option EngineRef :=
  loadedEngine

/-! ## Trace observations used by the theorems -/

/-- Whether a cleanup event is a per-slot deletion-queue flush. -/
def isSlotFlushEvent (e : CleanupEvent) : Bool :=
  match e with
  | CleanupEvent.slotFlush _ => true
  | _ => false

/-- Whether a cleanup event is the global deletion-queue flush. -/
def isGlobalFlushEvent (e : CleanupEvent) : Bool :=
  match e with
  | CleanupEvent.globalFlush => true
  | _ => false

/-- How many per-slot deletion-queue flushes a cleanup trace performs. -/
def slotFlushCount (tr : List CleanupEvent) : Nat :=
  tr.countP isSlotFlushEvent

/-- How many global deletion-queue flushes a cleanup trace performs. -/
def globalFlushCount (tr : List CleanupEvent) : Nat :=
  tr.countP isGlobalFlushEvent

/-- The resources a cleanup trace destroys, in destruction order. -/
def destroySeq (tr : List CleanupEvent) : List Res :=
  tr.filterMap fun e =>
    match e with
    | CleanupEvent.destroy r => some r
    | _ => none

/-- The position of the first occurrence of a resource in a list. -/
def firstIdx (l : List Res) (r : Res) : Option Nat :=
  l.findIdx? (fun x => x == r)

/-! # Theorems -/

/-- Registering callbacks one at a time stores them in registration order. -/
theorem registerAll_deletors {α : Type} (fs : List α) :
    (registerAll fs).deletors = fs := by
  suffices h : ∀ (q : DeletionQueue α),
      (fs.foldl DeletionQueue.push_function q).deletors = q.deletors ++ fs by
    simpa using h DeletionQueue.empty
  induction fs with
  | nil => intro q; simp
  | cons f fs ih =>
    intro q
    simp [List.foldl_cons, ih, DeletionQueue.push_function]

/-- A list consisting only of destroy events contains no flush events: its
count under any predicate that rejects destroy events is zero. -/
theorem countP_destroyMap_zero (p : CleanupEvent → Bool)
    (h : ∀ r : Res, p (CleanupEvent.destroy r) = false)
    (l : List Nat) (f : Nat → Res) :
    List.countP p (l.map fun i => CleanupEvent.destroy (f i)) = 0 := by
  induction l with
  | nil => rfl
  | cons a l ih => simp [List.countP_cons, h, ih]

/-- Claim C6: slot selection computes frame_number mod N with N = 2, so for
every frame index i, the slot of frame i + N equals the slot of frame i: slot
rotation is periodic with period N. -/
theorem current_slot_mod_periodic :
    FRAME_OVERLAP = 2 ∧
    (∀ i : Nat, current_slot i = i % FRAME_OVERLAP) ∧
    (∀ i : Nat, current_slot (i + FRAME_OVERLAP) = current_slot i) := by
  refine ⟨rfl, fun i => rfl, fun i => ?_⟩
  show (i + FRAME_OVERLAP) % FRAME_OVERLAP = i % FRAME_OVERLAP
  exact Nat.add_mod_right i FRAME_OVERLAP

/-- Claim C7: flushing a deletion queue executes its callbacks in exactly the
reverse of their registration order — for any sequence of registrations the
execution order is the reversed sequence, and in particular registering
A, B, C flushes C, B, A. Per-slot queues and the global queue are instances of
the same structure, so the LIFO invariant holds for both. -/
theorem flush_reverses_registration :
    (∀ (α : Type) (regs : List α),
      ((registerAll regs).flush).1 = regs.reverse) ∧
    (∀ (α : Type) (A B C : α),
      ((((DeletionQueue.empty.push_function A).push_function B).push_function
        C).flush).1 = [C, B, A]) := by
  constructor
  · intro α regs
    simp [DeletionQueue.flush, registerAll_deletors]
  · intro α A B C
    simp [DeletionQueue.flush, DeletionQueue.push_function,
      DeletionQueue.empty]

/-- Claim C8: init_sync_structures creates one render fence per frame slot,
each already in the signaled state, so the first wait on any slot's fence does
not block. -/
theorem init_sync_fences_start_signaled :
    initSyncRenderFences.length = FRAME_OVERLAP ∧
    (initSyncRenderFences.all fun f =>
      f.signaled && !waitForFenceBlocks f) = true := by
  decide

/-- Claim C10: at most one engine instance is live at a time — init asserts
that no engine is loaded before installing the global pointer, Get returns
exactly the installed instance, and cleanup always clears the pointer to null,
whether or not initialization completed. -/
theorem engine_singleton_protocol :
    (∀ e : EngineRef, engineInit none e = Except.ok (some e)) ∧
    (∀ e0 e : EngineRef,
      engineInit (some e0) e =
        Except.error AssertViolation.engineAlreadyLoaded) ∧
    (∀ e : EngineRef, engineGet (some e) = some e) ∧
    (∀ (isInitialized : Bool) (numViews : Nat),
      (cleanupRun isInitialized numViews).2 = none) :=
  ⟨fun _ => rfl, fun _ _ => rfl, fun _ => rfl, fun _ _ => rfl⟩

/-- Claim C5: for every frame number n the background value is
abs(sin(n / 120)), it lies in the interval from 0 to 1, frame 0 yields 0, and
the underlying real-valued function of the frame count is periodic with period
120 times pi. -/
theorem flash_formula_bounded_periodic :
    (∀ n : Nat, flash n = |Real.sin (n / 120)|) ∧
    (∀ n : Nat, 0 ≤ flash n ∧ flash n ≤ 1) ∧
    flash 0 = 0 ∧
    (∀ n : Nat, flash n = flashReal n) ∧
    (∀ x : ℝ, flashReal (x + 120 * Real.pi) = flashReal x) := by
  refine ⟨fun n => rfl, fun n => ⟨abs_nonneg _, ?_⟩, ?_, fun n => rfl,
    fun x => ?_⟩
  · exact abs_le.mpr ⟨Real.neg_one_le_sin _, Real.sin_le_one _⟩
  · simp [flash]
  · have h : (x + 120 * Real.pi) / 120 = x / 120 + Real.pi := by ring
    simp [flashReal, h, Real.sin_add_pi]

/-- Claim C3: in every successful frame, the semaphore events of the draw
trace are exactly: an acquire signaling the current slot's image-acquired
semaphore, then one submit waiting on that semaphore at the color-output
stage, signaling the slot's render-complete semaphore and the slot's
completion fence, then one present waiting on that same render-complete
semaphore. -/
theorem draw_submit_present_sync (n imageIndex : Nat) :
    syncEventsOf (drawTrace n imageIndex) =
      [DrawEvent.acquire (Sem.swapchainSem (current_slot n)),
       DrawEvent.submit
         { waitSem := Sem.swapchainSem (current_slot n),
           waitStage := Stage.colorAttachmentOutput,
           signalSem := Sem.renderSem (current_slot n),
           signalStage := Stage.allGraphics,
           fenceSlot := current_slot n },
       DrawEvent.present
         { waitSem := Sem.renderSem (current_slot n),
           imageIndex := imageIndex }] := by
  rfl

/-- Claim C4: in every frame — whatever results acquire and present return —
the fence and flush events of the draw trace are exactly: a wait on the
current slot's completion fence, then the flush of that slot's deletion queue,
then the reset of that fence; so the slot's queue is never flushed before its
fence wait succeeds, and the fence is reset only after the flush. -/
theorem draw_wait_flush_reset_order (n imageIndex : Nat)
    (acqRes presRes : VkResult) :
    fenceFlushEventsOf (drawTraceR n acqRes presRes imageIndex) =
      [DrawEvent.waitFence (current_slot n),
       DrawEvent.flushSlot (current_slot n),
       DrawEvent.resetFence (current_slot n)] := by
  cases acqRes <;> cases presRes <;> rfl

/-- Claim C1 counterexample: when acquire reports the surface out of date on
frame 0, the draw trace aborts immediately after the acquire — it contains no
surface recreation and no retry; the out-of-date result is fatal rather than
recoverable, contradicting the claim. -/
theorem draw_outdated_aborts_counterexample :
    drawTraceR 0 VkResult.errOutOfDate VkResult.success 0 =
      [DrawEvent.waitFence 0, DrawEvent.flushSlot 0, DrawEvent.resetFence 0,
       DrawEvent.acquire (Sem.swapchainSem 0), DrawEvent.abortFatal] ∧
    DrawEvent.recreateSurface ∉
      drawTraceR 0 VkResult.errOutOfDate VkResult.success 0 ∧
    DrawEvent.abortFatal ∈
      drawTraceR 0 VkResult.errOutOfDate VkResult.success 0 := by
  decide

/-- Claim C1 (amended): an out-of-date result from acquire or present is
treated like every other non-success result — VK_CHECK aborts the frame loop;
no code path of draw recreates the presentation surface or retries the
frame. -/
theorem draw_never_recreates_surface (n imageIndex : Nat)
    (acqRes presRes : VkResult) :
    DrawEvent.recreateSurface ∉ drawTraceR n acqRes presRes imageIndex ∧
    (acqRes = VkResult.errOutOfDate →
      DrawEvent.abortFatal ∈ drawTraceR n acqRes presRes imageIndex) ∧
    (acqRes = VkResult.success → presRes = VkResult.errOutOfDate →
      DrawEvent.abortFatal ∈ drawTraceR n acqRes presRes imageIndex) := by
  cases acqRes <;> cases presRes <;>
    simp [drawTraceR, vkCheckFatal]

/-- Witness for the amended claim C1 at a concrete frame: draw neither
recreates the surface nor retries when acquire reports out-of-date on
frame 1, and the trace aborts. -/
theorem draw_never_recreates_surface_witness :
    DrawEvent.recreateSurface ∉
      drawTraceR 1 VkResult.errOutOfDate VkResult.success 7 ∧
    DrawEvent.abortFatal ∈
      drawTraceR 1 VkResult.errOutOfDate VkResult.success 7 :=
  ⟨(draw_never_recreates_surface 1 7 VkResult.errOutOfDate
      VkResult.success).1,
   (draw_never_recreates_surface 1 7 VkResult.errOutOfDate
      VkResult.success).2.1 rfl⟩

/-- Claim C2 counterexample: with three swapchain image views, the cleanup
trace performs zero per-slot deletion-queue flushes although there are two
slots (contradicting "flushes every per-slot deletion queue exactly once"),
and destruction is not in strict reverse-allocation order: slot 0's command
pool is allocated before slot 0's render fence (positions 12 and 14 of the
allocation order) yet also destroyed before it (positions 0 and 1 of the
destruction order). -/
theorem cleanup_slot_flush_order_counterexample :
    slotFlushCount (cleanupRun true 3).1 = 0 ∧
    FRAME_OVERLAP = 2 ∧
    firstIdx (initAllocOrder 3) (Res.commandPool 0) = some 12 ∧
    firstIdx (initAllocOrder 3) (Res.renderFence 0) = some 14 ∧
    firstIdx (destroySeq (cleanupRun true 3).1) (Res.commandPool 0) =
      some 0 ∧
    firstIdx (destroySeq (cleanupRun true 3).1) (Res.renderFence 0) =
      some 1 := by
  decide

/-- Claim C2 (amended): invoking teardown on an initialized engine flushes the
global deletion queue exactly once and flushes no per-slot deletion queue; the
device-idle wait is the very first event of the trace, so no destruction call
executes before it; and when initialization never completed, no destruction
occurs at all but the engine pointer is still cleared. (Destruction follows
the fixed source order, which is not strictly reverse-allocation.) -/
theorem cleanup_flushes_after_idle (numViews : Nat) :
    globalFlushCount (cleanupRun true numViews).1 = 1 ∧
    slotFlushCount (cleanupRun true numViews).1 = 0 ∧
    (∃ rest, (cleanupRun true numViews).1 = CleanupEvent.waitIdle :: rest ∧
      CleanupEvent.waitIdle ∉ rest) ∧
    (cleanupRun false numViews).1 = [] ∧
    (∀ isInitialized : Bool,
      (cleanupRun isInitialized numViews).2 = none) := by
  have hg := countP_destroyMap_zero isGlobalFlushEvent (fun _ => rfl)
    (List.range numViews) Res.swapchainImageView
  have hs := countP_destroyMap_zero isSlotFlushEvent (fun _ => rfl)
    (List.range numViews) Res.swapchainImageView
  have htrace : (cleanupRun true numViews).1 = cleanupTraceInit numViews :=
    rfl
  refine ⟨?_, ?_, ?_, rfl, fun _ => rfl⟩
  · rw [htrace]
    simp only [globalFlushCount, cleanupTraceInit, List.countP_append, hg]
    decide
  · rw [htrace]
    simp only [slotFlushCount, cleanupTraceInit, List.countP_append, hs]
    decide
  · refine ⟨_, rfl, ?_⟩
    simp [cleanupTraceInit, registerAll, DeletionQueue.flush,
      DeletionQueue.push_function, DeletionQueue.empty,
      mainQueueRegistrations, List.mem_append, List.mem_map]

/-- Event processing only sets the quit flag on a quit-triggering event:
draining a batch of non-quit events leaves bQuit unchanged. -/
theorem processEvents_bQuit_of_no_quit (s : RunState)
    (events : List SDLEvent)
    (h : ∀ e ∈ events, isQuitEvent e = false) :
    (processEvents s events).bQuit = s.bQuit := by
  induction events generalizing s with
  | nil => rfl
  | cons e es ih =>
    have he : isQuitEvent e = false := h e (List.mem_cons_self e es)
    have hes : ∀ x ∈ es, isQuitEvent x = false := fun x hx =>
      h x (List.mem_cons_of_mem e hx)
    have hstep : (processEvent s e).bQuit = s.bQuit := by
      cases e with
      | quitEvent => simp [isQuitEvent] at he
      | windowMinimized => rfl
      | windowRestored => rfl
      | keyDown k =>
        cases k <;> first
          | rfl
          | simp [isQuitEvent] at he
      | otherEvent => rfl
    calc (processEvents s (e :: es)).bQuit
        = (processEvents (processEvent s e) es).bQuit := rfl
      _ = (processEvent s e).bQuit := ih (processEvent s e) hes
      _ = s.bQuit := hstep

/-- Claim C9: as long as stop_rendering is set at the end of event
processing, the loop iteration sleeps 100 ms instead of calling draw; event
batches without quit events never set the quit flag, so the loop keeps
running; and as soon as event processing leaves stop_rendering clear (the
window was restored), the iteration calls draw again. -/
theorem run_minimized_skips_draw (s : RunState) (events : List SDLEvent)
    (hnoquit : ∀ e ∈ events, isQuitEvent e = false) :
    ((processEvents s events).stop_rendering = true →
      runIteration s events =
        (processEvents s events, IterAction.sleepMs 100)) ∧
    (s.bQuit = false → loopContinues (processEvents s events) = true) ∧
    ((processEvents s events).stop_rendering = false →
      runIteration s events =
        (processEvents s events, IterAction.drawFrame)) := by
  refine ⟨fun hmin => ?_, fun hq => ?_, fun hres => ?_⟩
  · simp [runIteration, hmin]
  · simp [loopContinues, processEvents_bQuit_of_no_quit s events hnoquit, hq]
  · simp [runIteration, hres]

/-- Witness for claim C9: starting from a live, non-minimized loop state, a
minimize event makes the iteration sleep 100 ms without drawing while the
loop continues, and a subsequent restore event makes the next iteration draw
again. -/
theorem run_minimized_skips_draw_witness :
    runIteration ⟨false, false⟩ [SDLEvent.windowMinimized] =
      ({ bQuit := false, stop_rendering := true }, IterAction.sleepMs 100) ∧
    loopContinues { bQuit := false, stop_rendering := true } = true ∧
    runIteration ⟨false, true⟩ [SDLEvent.windowRestored] =
      ({ bQuit := false, stop_rendering := false },
        IterAction.drawFrame) := by
  have h1 := run_minimized_skips_draw ⟨false, false⟩
    [SDLEvent.windowMinimized]
    (by intro e he; rw [List.mem_singleton] at he; subst he; rfl)
  have h2 := run_minimized_skips_draw ⟨false, true⟩
    [SDLEvent.windowRestored]
    (by intro e he; rw [List.mem_singleton] at he; subst he; rfl)
  exact ⟨h1.1 rfl, h1.2.1 rfl, h2.2.2 rfl⟩

end VkAndrea
